import Mathlib

/-!
Verification of the `wangpansou` HTTP search handler (`api/handler.go`) and
router (`api/router.go`): request parsing, request normalization, the
mutual-exclusion rule between TG channels and plugins, the health endpoint,
the CORS middleware, and the cache fingerprint.

Go slices are modelled as `List String` (a `nil` slice and an empty slice are
both `[]`); a Go `map` that may be `nil` is modelled as `Option ExtMap`; the
JSON decoder (`pansou/util/json`, not part of the provided sources) is an
explicit function parameter, so every theorem quantifying over it holds for
any decoder behaviour.
-/

namespace Pansou

/-- Free-form extension map carried by a search request (Go
`map[string]interface\x7b\x7d`; the value type is irrelevant to the handler,
which never inspects it). -/
abbrev ExtMap : Type := List (String × String)

/-- Modelled from the spec: `model.SearchRequest` (package `pansou/model` is
not under the provided sources). Fields follow spec section 3 and their use in
`searchHandler` (api/handler.go lines 292-302, 317-352). `channels`,
`plugins`, `cloudTypes` are Go slices (nil and empty both `[]`); `ext` is a Go
map that may be nil (`none`). -/
structure SearchRequest where
  keyword : String := ""
  channels : List String := []
  concurrency : Nat := 0
  forceRefresh : Bool := false
  resultType : String := ""
  sourceType : String := ""
  plugins : List String := []
  cloudTypes : List String := []
  ext : Option ExtMap := none
  deriving DecidableEq, Repr

/-- Modelled from the spec: the response body of `pansou/model` (not under the
provided sources); spec section 6 gives the error shape as code and message
and the success shape as code 0 with data. -/
structure Response (α : Type) where
  code : Int
  message : String
  data : Option α
  deriving DecidableEq, Repr

/-- Modelled from the spec: `model.NewErrorResponse` builds the error body
with the given code and message and no data (spec section 6). -/
def NewErrorResponse (α : Type) (code : Int) (message : String) : Response α :=
  { code := code, message := message, data := none }

/-- Modelled from the spec: `model.NewSuccessResponse` builds the success body
with code 0 and the given data (spec section 6). -/
def NewSuccessResponse {α : Type} (data : α) : Response α :=
  { code := 0, message := "", data := some data }

/-- The query parameters of a GET `/api/search` request as Gin exposes them:
`c.Query name` is `""` when the parameter is absent, while `plugins` and
`cloud_types` are read through `c.Request.URL.Query().Has` first
(api/handler.go lines 236, 256), hence `Option String` with `none` for an
absent parameter. -/
structure Query where
  kw : String := ""
  keyword : String := ""
  channels : String := ""
  conc : String := ""
  refresh : String := ""
  res : String := ""
  src : String := ""
  plugins : Option String := none
  cloudTypes : Option String := none
  ext : String := ""
  deriving DecidableEq, Repr

/-- Comma-split used for `channels`, `plugins` and `cloud_types`
(api/handler.go lines 199-205): split on `","`, trim each part, keep the
non-empty parts. -/
def splitComma (s : String) : List String :=
  ((s.splitOn ",").map String.trim).filter (fun t => t ≠ "")

/-- The guard `s != "" && s != " "` plus `splitComma`, shared by the three GET
list parameters (api/handler.go lines 198, 239, 259). -/
def parseListParam (s : String) : List String :=
  if s ≠ "" ∧ s ≠ " " then splitComma s else []

/-- Keyword of a GET request (api/handler.go lines 189-192): `kw`, falling
back to `keyword` when `kw` is empty. -/
def keywordOfQuery (q : Query) : String :=
  if q.kw = "" then q.keyword else q.kw

/-- Modelled from the spec: `util.StringToInt` (package `pansou/util`, not
under the provided sources); the spec describes the concurrency hint as a
non-negative integer, so the model parses a decimal numeral and defaults to
zero. No claim depends on its exact behaviour. -/
def stringToInt (s : String) : Nat :=
  (s.toNat?).getD 0

/-- Concurrency of a GET request (api/handler.go lines 209-213). -/
def concurrencyOfQuery (q : Query) : Nat :=
  if q.conc ≠ "" ∧ q.conc ≠ " " then stringToInt q.conc else 0

/-- Force-refresh flag of a GET request (api/handler.go lines 216-220). -/
def forceRefreshOfQuery (q : Query) : Bool :=
  if q.refresh ≠ "" ∧ q.refresh ≠ " " ∧ q.refresh = "true" then true else false

/-- Result type of a GET request (api/handler.go lines 223-226): empty or a
lone space becomes the default `"merge"`. -/
def resultTypeOfQuery (q : Query) : String :=
  if q.res = "" ∨ q.res = " " then "merge" else q.res

/-- Source type of a GET request (api/handler.go lines 228-231): empty or a
lone space becomes the default `"all"`. -/
def sourceTypeOfQuery (q : Query) : String :=
  if q.src = "" ∨ q.src = " " then "all" else q.src

/-- Plugins of a GET request (api/handler.go lines 234-251): absent parameter
gives the nil slice, otherwise the guarded comma-split. -/
def pluginsOfQuery (q : Query) : List String :=
  match q.plugins with
  | none => []
  | some s => parseListParam s

/-- Cloud types of a GET request (api/handler.go lines 253-271), same shape as
`pluginsOfQuery`. -/
def cloudTypesOfQuery (q : Query) : List String :=
  match q.cloudTypes with
  | none => []
  | some s => parseListParam s

/-- Ext parsing of a GET request (api/handler.go lines 273-286) before the
final nil-check: empty or lone-space parameter leaves the map nil, the literal
two-character brace string gets a fresh empty map, anything else goes through
the JSON decoder (which may itself produce a nil map, as Go `Unmarshal` does
on JSON `null`). -/
def parseExt (decode : String → Except String (Option ExtMap)) (extStr : String) :
    Except String (Option ExtMap) :=
  if extStr = "" ∨ extStr = " " then Except.ok none
  else if extStr = "\x7b\x7d" then Except.ok (some [])
  else decode extStr

/-- The nil-check after ext parsing (api/handler.go lines 287-290): a nil map
is replaced by a fresh empty map. -/
def ensureExt (o : Option ExtMap) : Option ExtMap :=
  match o with
  | none => some []
  | some m => some m

/-- The GET branch of `searchHandler` (api/handler.go lines 185-302): build
the `SearchRequest` from the query, failing with the decoder's message when
the `ext` parameter is malformed JSON. -/
def parseGetRequest (decode : String → Except String (Option ExtMap)) (q : Query) :
    Except String SearchRequest :=
  match parseExt decode q.ext with
  | Except.error e => Except.error e
  | Except.ok extOpt => Except.ok
      { keyword := keywordOfQuery q
        channels := parseListParam q.channels
        concurrency := concurrencyOfQuery q
        forceRefresh := forceRefreshOfQuery q
        resultType := resultTypeOfQuery q
        sourceType := sourceTypeOfQuery q
        plugins := pluginsOfQuery q
        cloudTypes := cloudTypesOfQuery q
        ext := ensureExt extOpt }

/-- Default-channel substitution (api/handler.go lines 317-320): an empty
channel list is replaced by the configured default channels. -/
def applyDefaultChannels (dc : List String) (req : SearchRequest) : SearchRequest :=
  if req.channels = [] then { req with channels := dc } else req

/-- Result-type normalization (api/handler.go lines 322-328): empty and
`"merge"` both become `"merged_by_type"`; anything else is untouched. -/
def normalizeResultType (req : SearchRequest) : SearchRequest :=
  if req.resultType = "" then { req with resultType := "merged_by_type" }
  else if req.resultType = "merge" then { req with resultType := "merged_by_type" }
  else req

/-- Source-type defaulting (api/handler.go lines 331-333). -/
def normalizeSourceType (req : SearchRequest) : SearchRequest :=
  if req.sourceType = "" then { req with sourceType := "all" } else req

/-- The mutual-exclusion step (api/handler.go lines 335-345): `tg` drops the
plugins, `plugin` drops the channels, `all` renormalizes an empty plugin slice
to nil (the identity on the list model). -/
def applyMutualExclusion (req : SearchRequest) : SearchRequest :=
  if req.sourceType = "tg" then { req with plugins := [] }
  else if req.sourceType = "plugin" then { req with channels := [] }
  else if req.sourceType = "all" then
    (if req.plugins = [] then { req with plugins := [] } else req)
  else req

/-- The whole normalization block between parsing and the service call
(api/handler.go lines 317-345). -/
def normalizeRequest (dc : List String) (req : SearchRequest) : SearchRequest :=
  applyMutualExclusion (normalizeSourceType (normalizeResultType (applyDefaultChannels dc req)))

/-- The response tail of `searchHandler` (api/handler.go lines 352-364): a
search error becomes HTTP 500 with the error body, a search success becomes
HTTP 200 with the success body. -/
def searchRespond {α : Type} (outcome : Except String α) : Nat × Response α :=
  match outcome with
  | Except.error e => (500, NewErrorResponse α 500 ("搜索失败: " ++ e))
  | Except.ok r => (200, NewSuccessResponse r)

/-- The full GET path of `searchHandler`: parse, normalize (with the
configured default channels), call the search service, respond. A malformed
`ext` parameter yields HTTP 400 with the message of api/handler.go line 282
and the service is never called. -/
def handleGet {α : Type} (decode : String → Except String (Option ExtMap)) (q : Query)
    (dc : List String) (search : SearchRequest → Except String α) : Nat × Response α :=
  match parseGetRequest decode q with
  | Except.error e => (400, NewErrorResponse α 400 ("无效的ext参数格式: " ++ e))
  | Except.ok req => searchRespond (search (normalizeRequest dc req))

/-- The POST path of `searchHandler` (api/handler.go lines 303-315 plus the
shared tail): the body is decoded as JSON into a `SearchRequest`; a malformed
body yields HTTP 400 with the message of line 312. -/
def handlePost {α : Type} (decodeReq : String → Except String SearchRequest) (body : String)
    (dc : List String) (search : SearchRequest → Except String α) : Nat × Response α :=
  match decodeReq body with
  | Except.error e => (400, NewErrorResponse α 400 ("无效的请求参数: " ++ e))
  | Except.ok req => searchRespond (search (normalizeRequest dc req))

/-- Body of the `GET /api/health` handler (api/router.go lines 99-131).
`pluginCount` and `plugins` are `none` when the corresponding JSON fields are
absent from the response object. -/
structure HealthBody where
  status : String
  pluginsEnabled : Bool
  channels : List String
  channelsCount : Nat
  pluginCount : Option Nat
  plugins : Option (List String)
  deriving DecidableEq, Repr

/-- Modelled from the spec: the plugin registry view
(`searchService.GetPluginManager().GetPlugins()`, packages `pansou/service`
and `pansou/plugin`, not under the provided sources) reduced to the list of
registered plugin names; `none` models a nil search service or nil plugin
manager, under which the health handler counts no plugins. -/
def registeredPlugins (mgr : Option (List String)) : List String :=
  mgr.getD []

/-- The `GET /api/health` handler (api/router.go lines 99-131): plugin names
and count are computed only when plugins are enabled and the manager is
reachable, and the two plugin fields are added to the response only when
plugins are enabled. -/
def healthResponse (pluginsEnabled : Bool) (mgr : Option (List String))
    (defaultChannels : List String) : HealthBody :=
  let pluginNames := if pluginsEnabled then registeredPlugins mgr else []
  { status := "ok"
    pluginsEnabled := pluginsEnabled
    channels := defaultChannels
    channelsCount := defaultChannels.length
    pluginCount := if pluginsEnabled then some pluginNames.length else none
    plugins := if pluginsEnabled then some pluginNames else none }

/-- Outcome of the CORS middleware (api/handler.go lines 71-86): the four
headers it sets, and whether it aborted the request with a status (an aborted
request never reaches the search handler). -/
structure CorsResult where
  headers : List (String × String)
  aborted : Option Nat
  deriving DecidableEq, Repr

/-- The CORS middleware (api/handler.go lines 71-86): echoes the request
`Origin` header into `Access-Control-Allow-Origin` and aborts OPTIONS requests
with HTTP 204. -/
def corsMiddleware (method : String) (origin : String) : CorsResult :=
  { headers := [("Access-Control-Allow-Origin", origin),
                ("Access-Control-Allow-Methods", "GET, POST, OPTIONS"),
                ("Access-Control-Allow-Headers", "Content-Type, Authorization"),
                ("Access-Control-Allow-Credentials", "true")]
    aborted := if method = "OPTIONS" then some 204 else none }

/-- The middleware chain around a handler: when the CORS middleware aborts,
its status is returned with no body and the handler result is discarded;
otherwise the handler's status and body pass through. -/
def serveWithCors {α : Type} (method : String) (origin : String)
    (handler : Nat × Response α) : Nat × Option (Response α) :=
  match (corsMiddleware method origin).aborted with
  | some s => (s, none)
  | none => (handler.1, some handler.2)

/-- Boolean lexicographic order on char lists, mirroring Go string comparison
(used only by the fingerprint model; written over `List Char` so that it
evaluates inside the kernel). -/
def charListLe : List Char → List Char → Bool
  | [], _ => true
  | _ :: _, [] => false
  | a :: as, b :: bs => if a < b then true else if b < a then false else charListLe as bs

/-- Boolean string order over the underlying char lists. -/
def strLeb (a b : String) : Bool :=
  charListLe a.data b.data

/-- Sorting used to normalize the list-valued request fields before they enter
the fingerprint. -/
def sortStrings (l : List String) : List String :=
  l.insertionSort (fun a b => strLeb a b = true)

/-- Modelled from the spec: the cache fingerprint (`util/cache`, not under the
provided sources) is "an opaque string derived from keyword + normalized
filter set, order-insensitive" (spec section 3); the model joins the keyword,
the sorted channels, plugins and cloud types, and the remaining enum filters
with a separator that cannot merge adjacent fields silently. -/
def fingerprint (req : SearchRequest) : String :=
  req.keyword
    ++ "|" ++ String.intercalate "," (sortStrings req.channels)
    ++ "|" ++ String.intercalate "," (sortStrings req.plugins)
    ++ "|" ++ String.intercalate "," (sortStrings req.cloudTypes)
    ++ "|" ++ req.sourceType ++ "|" ++ req.resultType

theorem charListLe_total : ∀ (as bs : List Char), charListLe as bs = true ∨ charListLe bs as = true
  | [], bs => Or.inl (by cases bs <;> rfl)
  | _ :: _, [] => Or.inr rfl
  | a :: as, b :: bs => by
      simp only [charListLe]
      rcases lt_trichotomy a b with h | h | h
      · left; rw [if_pos h]
      · subst h
        simp only [if_neg (lt_irrefl a)]
        exact charListLe_total as bs
      · right; rw [if_pos h]

theorem charListLe_trans : ∀ (as bs cs : List Char), charListLe as bs = true →
    charListLe bs cs = true → charListLe as cs = true
  | [], _, cs, _, _ => by cases cs <;> rfl
  | _ :: _, [], _, hab, _ => by simp [charListLe] at hab
  | _ :: _, _ :: _, [], _, hbc => by simp [charListLe] at hbc
  | a :: as, b :: bs, c :: cs, hab, hbc => by
      simp only [charListLe] at hab hbc ⊢
      rcases lt_trichotomy a b with h1 | h1 | h1
      · rcases lt_trichotomy b c with h2 | h2 | h2
        · rw [if_pos (lt_trans h1 h2)]
        · subst h2; rw [if_pos h1]
        · rw [if_neg (lt_asymm h2), if_pos h2] at hbc; simp at hbc
      · subst h1
        rw [if_neg (lt_irrefl a), if_neg (lt_irrefl a)] at hab
        rcases lt_trichotomy a c with h2 | h2 | h2
        · rw [if_pos h2]
        · subst h2
          rw [if_neg (lt_irrefl a), if_neg (lt_irrefl a)] at hbc ⊢
          exact charListLe_trans as bs cs hab hbc
        · rw [if_neg (lt_asymm h2), if_pos h2] at hbc; simp at hbc
      · rw [if_neg (lt_asymm h1), if_pos h1] at hab; simp at hab

theorem charListLe_antisymm : ∀ (as bs : List Char), charListLe as bs = true →
    charListLe bs as = true → as = bs
  | [], [], _, _ => rfl
  | [], _ :: _, _, hba => by simp [charListLe] at hba
  | _ :: _, [], hab, _ => by simp [charListLe] at hab
  | a :: as, b :: bs, hab, hba => by
      simp only [charListLe] at hab hba
      rcases lt_trichotomy a b with h | h | h
      · rw [if_neg (lt_asymm h), if_pos h] at hba; simp at hba
      · subst h
        rw [if_neg (lt_irrefl a), if_neg (lt_irrefl a)] at hab hba
        rw [charListLe_antisymm as bs hab hba]
      · rw [if_neg (lt_asymm h), if_pos h] at hab; simp at hab

theorem sortStrings_eq_of_perm {s t : List String} (h : s.Perm t) :
    sortStrings s = sortStrings t := by
  haveI i1 : IsTotal String (fun a b => strLeb a b = true) :=
    ⟨fun a b => charListLe_total a.data b.data⟩
  haveI i2 : IsTrans String (fun a b => strLeb a b = true) :=
    ⟨fun a b c => charListLe_trans a.data b.data c.data⟩
  haveI i3 : IsAntisymm String (fun a b => strLeb a b = true) :=
    ⟨fun a b h1 h2 => String.ext (charListLe_antisymm a.data b.data h1 h2)⟩
  exact List.eq_of_perm_of_sorted
    ((List.perm_insertionSort _ s).trans (h.trans (List.perm_insertionSort _ t).symm))
    (List.sorted_insertionSort _ s) (List.sorted_insertionSort _ t)

theorem sourceType_before_exclusion (dc : List String) (r : SearchRequest) :
    (normalizeSourceType (normalizeResultType (applyDefaultChannels dc r))).sourceType =
      (if r.sourceType = "" then "all" else r.sourceType) := by
  unfold normalizeSourceType normalizeResultType applyDefaultChannels
  split_ifs <;> rfl

theorem plugins_before_exclusion (dc : List String) (r : SearchRequest) :
    (normalizeSourceType (normalizeResultType (applyDefaultChannels dc r))).plugins = r.plugins := by
  unfold normalizeSourceType normalizeResultType applyDefaultChannels
  split_ifs <;> rfl

theorem channels_before_exclusion (dc : List String) (r : SearchRequest) :
    (normalizeSourceType (normalizeResultType (applyDefaultChannels dc r))).channels =
      (if r.channels = [] then dc else r.channels) := by
  unfold normalizeSourceType normalizeResultType applyDefaultChannels
  split_ifs <;> rfl

theorem ext_before_exclusion (dc : List String) (r : SearchRequest) :
    (normalizeSourceType (normalizeResultType (applyDefaultChannels dc r))).ext = r.ext := by
  unfold normalizeSourceType normalizeResultType applyDefaultChannels
  split_ifs <;> rfl

theorem resultType_before_exclusion (dc : List String) (r : SearchRequest) :
    (normalizeSourceType (normalizeResultType (applyDefaultChannels dc r))).resultType =
      (if r.resultType = "" ∨ r.resultType = "merge" then "merged_by_type" else r.resultType) := by
  unfold normalizeSourceType normalizeResultType applyDefaultChannels
  split_ifs <;> simp_all

theorem applyMutualExclusion_ext (r : SearchRequest) :
    (applyMutualExclusion r).ext = r.ext := by
  unfold applyMutualExclusion
  split_ifs <;> rfl

theorem applyMutualExclusion_resultType (r : SearchRequest) :
    (applyMutualExclusion r).resultType = r.resultType := by
  unfold applyMutualExclusion
  split_ifs <;> rfl

theorem ext_normalizeRequest (dc : List String) (r : SearchRequest) :
    (normalizeRequest dc r).ext = r.ext := by
  unfold normalizeRequest
  rw [applyMutualExclusion_ext, ext_before_exclusion]

theorem resultType_normalizeRequest (dc : List String) (r : SearchRequest) :
    (normalizeRequest dc r).resultType =
      (if r.resultType = "" ∨ r.resultType = "merge" then "merged_by_type" else r.resultType) := by
  unfold normalizeRequest
  rw [applyMutualExclusion_resultType, resultType_before_exclusion]

/-- C1: when the source type is "tg" the mutual-exclusion step empties the
plugin list (and so does the full normalization, which ends with that step);
when it is "plugin" the channel list is emptied; for any other source type the
step passes both lists through unchanged. -/
theorem C1_mutual_exclusion (dc : List String) (req : SearchRequest) :
    (req.sourceType = "tg" →
      (applyMutualExclusion req).plugins = [] ∧
      (normalizeRequest dc req).plugins = []) ∧
    (req.sourceType = "plugin" →
      (applyMutualExclusion req).channels = [] ∧
      (normalizeRequest dc req).channels = []) ∧
    (req.sourceType ≠ "tg" → req.sourceType ≠ "plugin" →
      (applyMutualExclusion req).channels = req.channels ∧
      (applyMutualExclusion req).plugins = req.plugins) := by
  refine ⟨?_, ?_, ?_⟩
  · intro h
    have hst : (normalizeSourceType (normalizeResultType (applyDefaultChannels dc req))).sourceType = "tg" := by
      rw [sourceType_before_exclusion, h]; decide
    constructor
    · unfold applyMutualExclusion; rw [if_pos h]
    · unfold normalizeRequest applyMutualExclusion; rw [if_pos hst]
  · intro h
    have htg : req.sourceType ≠ "tg" := by rw [h]; decide
    have hst : (normalizeSourceType (normalizeResultType (applyDefaultChannels dc req))).sourceType = "plugin" := by
      rw [sourceType_before_exclusion, h]; decide
    have hst' : (normalizeSourceType (normalizeResultType (applyDefaultChannels dc req))).sourceType ≠ "tg" := by
      rw [hst]; decide
    constructor
    · unfold applyMutualExclusion; rw [if_neg htg, if_pos h]
    · unfold normalizeRequest applyMutualExclusion; rw [if_neg hst', if_pos hst]
  · intro h1 h2
    unfold applyMutualExclusion
    rw [if_neg h1, if_neg h2]
    by_cases h3 : req.sourceType = "all"
    · rw [if_pos h3]
      by_cases h4 : req.plugins = []
      · rw [if_pos h4]; exact ⟨rfl, h4.symm⟩
      · rw [if_neg h4]; exact ⟨rfl, rfl⟩
    · rw [if_neg h3]; exact ⟨rfl, rfl⟩

theorem C1_mutual_exclusion_witness :
    (applyMutualExclusion
      { keyword := "x", sourceType := "tg", plugins := ["a","b"], channels := ["c"] }).plugins = [] ∧
    (normalizeRequest ["d"]
      { keyword := "x", sourceType := "plugin", plugins := ["a"], channels := ["c"] }).channels = [] :=
  ⟨((C1_mutual_exclusion ["d"] _).1 rfl).1, ((C1_mutual_exclusion ["d"] _).2.1 rfl).2⟩

/-- C2: a failing search yields HTTP 500 with body code 500 and message equal
to the failure marker followed by the error text; a successful search yields
HTTP 200 with body code 0 and the result as data. -/
theorem C2_search_failure_response {α : Type} (outcome : Except String α) :
    (∀ e : String, outcome = Except.error e →
      (searchRespond outcome).1 = 500 ∧
      (searchRespond outcome).2.code = 500 ∧
      (searchRespond outcome).2.message = "搜索失败: " ++ e) ∧
    (∀ r : α, outcome = Except.ok r →
      (searchRespond outcome).1 = 200 ∧
      (searchRespond outcome).2.code = 0 ∧
      (searchRespond outcome).2.data = some r) := by
  constructor
  · intro e h; subst h; exact ⟨rfl, rfl, rfl⟩
  · intro r h; subst h; exact ⟨rfl, rfl, rfl⟩

theorem C2_search_failure_response_witness :
    (searchRespond (Except.error "网络错误" : Except String Nat)).1 = 500 ∧
    (searchRespond (Except.error "网络错误" : Except String Nat)).2.message = "搜索失败: " ++ "网络错误" ∧
    (searchRespond (Except.ok 3 : Except String Nat)).2.code = 0 :=
  ⟨((C2_search_failure_response (Except.error "网络错误")).1 "网络错误" rfl).1,
   ((C2_search_failure_response (Except.error "网络错误")).1 "网络错误" rfl).2.2,
   ((C2_search_failure_response (Except.ok 3)).2 3 rfl).2.1⟩

/-- C6: the default-channel step replaces an empty channel list with the
configured default channels and passes a non-empty list through unchanged. -/
theorem C6_default_channels (dc : List String) (req : SearchRequest) :
    (req.channels = [] → applyDefaultChannels dc req = { req with channels := dc }) ∧
    (req.channels ≠ [] → applyDefaultChannels dc req = req) := by
  unfold applyDefaultChannels
  exact ⟨fun h => if_pos h, fun h => if_neg h⟩

theorem C6_default_channels_witness :
    applyDefaultChannels ["tgsearchers2"] { keyword := "k" }
        = { keyword := "k", channels := ["tgsearchers2"] } ∧
    applyDefaultChannels ["tgsearchers2"] { keyword := "k", channels := ["mine"] }
        = { keyword := "k", channels := ["mine"] } :=
  ⟨(C6_default_channels ["tgsearchers2"] _).1 rfl,
   (C6_default_channels ["tgsearchers2"] _).2 (by decide)⟩

/-- C5: every health response has status "ok", echoes the configured channels
with a matching count, carries the two plugin fields exactly when plugins are
enabled, and then reports the registered plugin names and their number. -/
theorem C5_health_response (pe : Bool) (mgr : Option (List String)) (dc : List String) :
    (healthResponse pe mgr dc).status = "ok" ∧
    (healthResponse pe mgr dc).pluginsEnabled = pe ∧
    (healthResponse pe mgr dc).channels = dc ∧
    (healthResponse pe mgr dc).channelsCount = (healthResponse pe mgr dc).channels.length ∧
    ((healthResponse pe mgr dc).pluginCount.isSome = true ↔ pe = true) ∧
    ((healthResponse pe mgr dc).plugins.isSome = true ↔ pe = true) ∧
    (pe = true →
      (healthResponse pe mgr dc).pluginCount = some (registeredPlugins mgr).length ∧
      (healthResponse pe mgr dc).plugins = some (registeredPlugins mgr)) := by
  cases pe <;> simp [healthResponse]

theorem C5_health_response_witness :
    (healthResponse true (some ["pansearch", "panta"]) ["tgsearchers2"]).status = "ok" ∧
    (healthResponse true (some ["pansearch", "panta"]) ["tgsearchers2"]).channelsCount = 1 ∧
    (healthResponse true (some ["pansearch", "panta"]) ["tgsearchers2"]).pluginCount = some 2 ∧
    (healthResponse false (some ["pansearch"]) []).plugins.isSome = false := by
  refine ⟨(C5_health_response true (some ["pansearch", "panta"]) ["tgsearchers2"]).1, ?_, ?_, ?_⟩
  · have h := (C5_health_response true (some ["pansearch", "panta"]) ["tgsearchers2"]).2.2.2.1
    simpa using h
  · exact ((C5_health_response true (some ["pansearch", "panta"]) ["tgsearchers2"]).2.2.2.2.2.2 rfl).1
  · have h := (C5_health_response false (some ["pansearch"]) []).2.2.2.2.2.1
    simp at h
    simp [h]

/-- C4: a GET request takes its keyword from the kw parameter, falling back to
the keyword parameter when kw is absent or empty, and swapping the value
between the two parameter names changes nothing that the handler parses. -/
theorem C4_keyword_param_fallback (q : Query) (v : String)
    (decode : String → Except String (Option ExtMap)) :
    (keywordOfQuery q = if q.kw = "" then q.keyword else q.kw) ∧
    (keywordOfQuery { q with kw := v, keyword := "" }
      = keywordOfQuery { q with kw := "", keyword := v }) ∧
    (parseGetRequest decode { q with kw := v, keyword := "" }
      = parseGetRequest decode { q with kw := "", keyword := v }) := by
  have hk : keywordOfQuery { q with kw := v, keyword := "" }
      = keywordOfQuery { q with kw := "", keyword := v } := by
    unfold keywordOfQuery
    by_cases h : v = "" <;> simp [h]
  refine ⟨rfl, hk, ?_⟩
  have hx1 : parseExt decode ({ q with kw := v, keyword := "" } : Query).ext
      = parseExt decode q.ext := rfl
  have hx2 : parseExt decode ({ q with kw := "", keyword := v } : Query).ext
      = parseExt decode q.ext := rfl
  unfold parseGetRequest
  rw [hx1, hx2]
  cases hx : parseExt decode q.ext with
  | error e => rfl
  | ok extOpt =>
      simp only [Except.ok.injEq]
      rw [show keywordOfQuery { q with kw := v, keyword := "" }
            = keywordOfQuery { q with kw := "", keyword := v } from hk]
      rfl

/-- C3 counterexample: a GET request with an empty keyword (no kw and no
keyword parameter) is not rejected with HTTP 400; the handler invokes the
search service (whose answer 7 reaches the response) and returns HTTP 200. -/
theorem C3_empty_keyword_not_rejected :
    keywordOfQuery ({} : Query) = "" ∧
    handleGet (fun _ => Except.error "never called") ({} : Query) ["ch"]
        (fun _ => Except.ok (7 : Nat))
      = (200, NewSuccessResponse 7) := by
  exact ⟨rfl, rfl⟩

/-- C3 amended: a malformed ext parameter (GET) or a malformed JSON body
(POST) yields HTTP 400 with a human-readable message and the search service is
never invoked (the response does not depend on it); an empty keyword, however,
is not rejected: whenever parsing succeeds the handler always proceeds to the
search service. -/
theorem C3_input_errors {α : Type} :
    (∀ (decode : String → Except String (Option ExtMap)) (q : Query) (dc : List String)
        (search : SearchRequest → Except String α) (e : String),
        q.ext ≠ "" → q.ext ≠ " " → q.ext ≠ "\x7b\x7d" → decode q.ext = Except.error e →
        handleGet decode q dc search
          = (400, NewErrorResponse α 400 ("无效的ext参数格式: " ++ e)) ∧
        ∀ search' : SearchRequest → Except String α,
          handleGet decode q dc search' = handleGet decode q dc search) ∧
    (∀ (decodeReq : String → Except String SearchRequest) (body : String) (dc : List String)
        (search : SearchRequest → Except String α) (e : String),
        decodeReq body = Except.error e →
        handlePost decodeReq body dc search
          = (400, NewErrorResponse α 400 ("无效的请求参数: " ++ e)) ∧
        ∀ search' : SearchRequest → Except String α,
          handlePost decodeReq body dc search' = handlePost decodeReq body dc search) ∧
    (∀ (decode : String → Except String (Option ExtMap)) (q : Query) (dc : List String)
        (search : SearchRequest → Except String α) (req : SearchRequest),
        parseGetRequest decode q = Except.ok req →
        handleGet decode q dc search = searchRespond (search (normalizeRequest dc req))) := by
  refine ⟨?_, ?_, ?_⟩
  · intro decode q dc search e h1 h2 h3 h4
    have hpe : parseExt decode q.ext = Except.error e := by
      unfold parseExt
      rw [if_neg (by simp [h1, h2]), if_neg h3]
      exact h4
    have hpr : parseGetRequest decode q = Except.error e := by
      unfold parseGetRequest; rw [hpe]
    constructor
    · unfold handleGet; rw [hpr]
    · intro search'
      unfold handleGet; rw [hpr]
  · intro decodeReq body dc search e h
    constructor
    · unfold handlePost; rw [h]
    · intro search'
      unfold handlePost; rw [h]
  · intro decode q dc search req h
    unfold handleGet; rw [h]

theorem C3_input_errors_witness :
    handleGet (fun _ => Except.error "bad") ({ ext := "notjson" } : Query) []
        (fun _ => Except.ok (0 : Nat))
      = (400, NewErrorResponse Nat 400 ("无效的ext参数格式: " ++ "bad")) :=
  ((C3_input_errors (α := Nat)).1 _ _ _ _ "bad" (by decide) (by decide) (by decide) rfl).1

/-- C8: a successfully parsed GET request always hands the search service a
non-nil ext map; when the ext parameter is absent (empty) or the literal empty
JSON object, that map is the empty map; normalization never touches it. -/
theorem C8_ext_never_nil (decode : String → Except String (Option ExtMap)) (q : Query)
    (req : SearchRequest) (h : parseGetRequest decode q = Except.ok req) :
    req.ext.isSome = true ∧
    ((q.ext = "" ∨ q.ext = "\x7b\x7d") → req.ext = some []) ∧
    (∀ dc : List String, (normalizeRequest dc req).ext = req.ext) := by
  have hex : ∃ o, parseExt decode q.ext = Except.ok o ∧ req.ext = ensureExt o := by
    unfold parseGetRequest at h
    cases hx : parseExt decode q.ext with
    | error e => rw [hx] at h; cases h
    | ok o =>
        rw [hx] at h
        injection h with h'
        exact ⟨o, rfl, by rw [← h']⟩
  obtain ⟨o, ho, hext⟩ := hex
  refine ⟨?_, ?_, fun dc => ext_normalizeRequest dc req⟩
  · rw [hext]; cases o <;> rfl
  · rintro (hc | hc)
    · have ho' : parseExt decode q.ext = Except.ok none := by
        unfold parseExt; rw [if_pos (Or.inl hc)]
      have hno : (none : Option ExtMap) = o := Except.ok.inj (ho'.symm.trans ho)
      rw [hext, ← hno]; rfl
    · have hne : ¬(q.ext = "" ∨ q.ext = " ") := by rw [hc]; decide
      have ho' : parseExt decode q.ext = Except.ok (some []) := by
        unfold parseExt; rw [if_neg hne, if_pos hc]
      have hso : (some [] : Option ExtMap) = o := Except.ok.inj (ho'.symm.trans ho)
      rw [hext, ← hso]; rfl

theorem C8_ext_never_nil_witness :
    ({ resultType := "merge", sourceType := "all", ext := some [] } : SearchRequest).ext
        = some [] ∧
    ({ resultType := "merge", sourceType := "all", ext := some [] } : SearchRequest).ext.isSome
        = true :=
  have h : parseGetRequest (fun _ => Except.error "x") ({} : Query)
      = Except.ok { resultType := "merge", sourceType := "all", ext := some [] } := rfl
  ⟨(C8_ext_never_nil _ _ _ h).2.1 (Or.inl rfl), (C8_ext_never_nil _ _ _ h).1⟩

/-- C9 counterexample: a GET request supplying the result type " " (a lone
space, neither absent nor "merge") does not pass it through unchanged: the
search service receives "merged_by_type". The service callback returns the
result type it was handed, so the response data exhibits it. -/
theorem C9_lone_space_result_type :
    handleGet (fun _ => Except.error "unused") ({ res := " " } : Query) []
        (fun r => Except.ok r.resultType)
      = (200, NewSuccessResponse "merged_by_type") ∧
    (" " : String) ≠ "merged_by_type" ∧ (" " : String) ≠ "merge" ∧ (" " : String) ≠ "" := by
  exact ⟨rfl, by decide, by decide, by decide⟩

/-- C9 amended: normalization sends an empty and a "merge" result type to
"merged_by_type" and passes any other value through unchanged; on the GET
path, an absent result type parameter and a lone-space one are both treated as
absent (they parse to the default "merge"), while any other supplied value
parses to itself. -/
theorem C9_result_type_normalization :
    (∀ (r : SearchRequest) (dc : List String),
      ((r.resultType = "" ∨ r.resultType = "merge") →
        (normalizeRequest dc r).resultType = "merged_by_type") ∧
      (r.resultType ≠ "" → r.resultType ≠ "merge" →
        (normalizeRequest dc r).resultType = r.resultType)) ∧
    (∀ (q : Query) (decode : String → Except String (Option ExtMap)) (req : SearchRequest),
      parseGetRequest decode q = Except.ok req →
      ((q.res = "" ∨ q.res = " ") → req.resultType = "merge") ∧
      (q.res ≠ "" → q.res ≠ " " → req.resultType = q.res)) := by
  constructor
  · intro r dc
    constructor
    · intro h; rw [resultType_normalizeRequest, if_pos h]
    · intro h1 h2; rw [resultType_normalizeRequest, if_neg (by simp [h1, h2])]
  · intro q decode req h
    have hrt : req.resultType = resultTypeOfQuery q := by
      unfold parseGetRequest at h
      cases hx : parseExt decode q.ext with
      | error e => rw [hx] at h; cases h
      | ok o => rw [hx] at h; injection h with h'; rw [← h']
    constructor
    · intro hc; rw [hrt]; unfold resultTypeOfQuery; rw [if_pos hc]
    · intro h1 h2; rw [hrt]; unfold resultTypeOfQuery; rw [if_neg (by simp [h1, h2])]

theorem C9_result_type_normalization_witness :
    (normalizeRequest [] ({ resultType := "merge" } : SearchRequest)).resultType
        = "merged_by_type" ∧
    (normalizeRequest [] ({ resultType := "results" } : SearchRequest)).resultType
        = "results" :=
  ⟨(C9_result_type_normalization.1 { resultType := "merge" } []).1 (Or.inr rfl),
   (C9_result_type_normalization.1 { resultType := "results" } []).2 (by decide) (by decide)⟩

/-- C7: the fingerprint is stable under reordering of the channels, plugins
and cloud-types lists: two requests equal in every other field whose three
list fields are permutations of each other get the same fingerprint. -/
theorem C7_fingerprint_stability (r1 r2 : SearchRequest)
    (hk : r1.keyword = r2.keyword) (hco : r1.concurrency = r2.concurrency)
    (hf : r1.forceRefresh = r2.forceRefresh) (hrt : r1.resultType = r2.resultType)
    (hst : r1.sourceType = r2.sourceType) (he : r1.ext = r2.ext)
    (hch : r1.channels.Perm r2.channels) (hpl : r1.plugins.Perm r2.plugins)
    (hct : r1.cloudTypes.Perm r2.cloudTypes) :
    fingerprint r1 = fingerprint r2 := by
  unfold fingerprint
  rw [hk, hrt, hst, sortStrings_eq_of_perm hch, sortStrings_eq_of_perm hpl,
    sortStrings_eq_of_perm hct]

theorem C7_fingerprint_stability_witness :
    fingerprint { keyword := "k", channels := ["a", "b"], plugins := ["p", "q"],
                  cloudTypes := ["baidu", "quark"], sourceType := "all",
                  resultType := "merged_by_type" }
      = fingerprint { keyword := "k", channels := ["b", "a"], plugins := ["q", "p"],
                      cloudTypes := ["quark", "baidu"], sourceType := "all",
                      resultType := "merged_by_type" } :=
  C7_fingerprint_stability _ _ rfl rfl rfl rfl rfl rfl
    (List.Perm.swap "b" "a" []) (List.Perm.swap "q" "p" []) (List.Perm.swap "quark" "baidu" [])

/-- C10: the CORS middleware aborts every OPTIONS request with HTTP 204 before
the handler runs (the outcome does not depend on the handler), passes other
requests through to the handler, and always echoes the request Origin header
as Access-Control-Allow-Origin. -/
theorem C10_cors_middleware {α : Type} (method origin : String) (h1 h2 : Nat × Response α) :
    (method = "OPTIONS" →
      (corsMiddleware method origin).aborted = some 204 ∧
      serveWithCors method origin h1 = (204, none) ∧
      serveWithCors method origin h1 = serveWithCors method origin h2) ∧
    (method ≠ "OPTIONS" →
      (corsMiddleware method origin).aborted = none ∧
      serveWithCors method origin h1 = (h1.1, some h1.2)) ∧
    (corsMiddleware method origin).headers.lookup "Access-Control-Allow-Origin"
      = some origin := by
  refine ⟨?_, ?_, ?_⟩
  · intro h
    have ha : (corsMiddleware method origin).aborted = some 204 := by
      unfold corsMiddleware; simp [h]
    refine ⟨ha, ?_, ?_⟩
    · unfold serveWithCors; rw [ha]
    · unfold serveWithCors; rw [ha]
  · intro h
    have ha : (corsMiddleware method origin).aborted = none := by
      unfold corsMiddleware; simp [h]
    exact ⟨ha, by unfold serveWithCors; rw [ha]⟩
  · rfl

theorem C10_cors_middleware_witness :
    serveWithCors "OPTIONS" "https://example.com"
        ((200, NewSuccessResponse 1) : Nat × Response Nat) = (204, none) ∧
    (corsMiddleware "GET" "https://example.com").headers.lookup "Access-Control-Allow-Origin"
      = some "https://example.com" :=
  ⟨((C10_cors_middleware "OPTIONS" "https://example.com"
      ((200, NewSuccessResponse 1) : Nat × Response Nat)
      ((500, NewErrorResponse Nat 500 "x") : Nat × Response Nat)).1 rfl).2.1,
   (C10_cors_middleware "GET" "https://example.com"
      ((200, NewSuccessResponse 1) : Nat × Response Nat)
      ((200, NewSuccessResponse 1) : Nat × Response Nat)).2.2⟩

end Pansou
